import Mathlib

/-!
Shallow embedding of the lead-reply email backend (Flask app: `app/utils.py`,
`app/prompts.py`, `app/routes.py`) and proofs about it.

Python values arriving through `request.json` are modelled by `PyVal`
(JSON-style values); Python exceptions by `PyErr` carried in `Except`.
Strings are Lean `String`s; the regex-based extraction in
`parse_email_response` is modelled over `List Char` following the exact
backtracking behaviour of the two patterns used in the source.
-/

namespace LeadReply

/-- Model of a Python/JSON value as delivered by `request.json`. -/
inductive PyVal where
  | none : PyVal
  | bool : Bool → PyVal
  | int : Int → PyVal
  | str : String → PyVal
  | list : List PyVal → PyVal
  | dict : List (String × PyVal) → PyVal
deriving Repr

/-- Model of a Python exception (only the kinds the embedded code can raise). -/
inductive PyErr where
  | typeError : PyErr
  | keyError : String → PyErr
  | upstreamError : PyErr
deriving Repr, DecidableEq

/-- Whitespace characters stripped by Python `str.strip()` and matched by the
regex class in the ASCII range. -/
def pyIsSpace (c : Char) : Bool :=
  c = ' ' || c = '\t' || c = '\n' || c = '\r' || c = '\x0b' || c = '\x0c'

/-- Model of Python `str.strip()` on a character list: drop whitespace from
both ends. -/
def pyStripList (l : List Char) : List Char :=
  ((l.dropWhile pyIsSpace).reverse.dropWhile pyIsSpace).reverse

/-- Model of Python `str.strip()`. -/
def pyStrip (s : String) : String :=
  ⟨pyStripList s.data⟩

/-- Index of the leftmost occurrence of `pat` as a contiguous sublist of `l`
(`none` when there is no occurrence).  This is the position at which
`re.search` anchors a pattern that begins with the literal `pat`. -/
def firstOcc (pat : List Char) : List Char → Option Nat
  | [] => if pat.isPrefixOf ([] : List Char) then some 0 else Option.none
  | c :: rest =>
    if pat.isPrefixOf (c :: rest) then some 0
    else (firstOcc pat rest).map (· + 1)

/-- Model of Python `pat in s` for strings: contiguous-substring test. -/
def strContains (s pat : String) : Bool :=
  (firstOcc pat.data s.data).isSome

/-- Model of Python `x == key` where `key` is a `str`: in Python only an equal
string compares equal to a string, every other value compares unequal. -/
def pyEqStr (v : PyVal) (key : String) : Bool :=
  match v with
  | .str s => s = key
  | _ => false

/-- Model of the Python membership test `key in data` for a string `key`:
keys of a dict, substring of a str, `==`-membership in a list, and a
`TypeError` for the non-container values (`None`, bools, ints). -/
def pyContains (data : PyVal) (key : String) : Except PyErr Bool :=
  match data with
  | .dict l => .ok (l.lookup key).isSome
  | .str s => .ok (strContains s key)
  | .list xs => .ok (xs.any (pyEqStr · key))
  | _ => .error .typeError

/-- Model of the Python subscript `data[key]` for a string `key`: dict lookup
(raising `KeyError` when absent), `TypeError` on every other value (string and
list subscripts require integer indices). -/
def pyGetItem (data : PyVal) (key : String) : Except PyErr PyVal :=
  match data with
  | .dict l =>
    match l.lookup key with
    | some v => .ok v
    | Option.none => .error (.keyError key)
  | _ => .error .typeError

/-- Loop body of `validate_email_request`: walk the required-field list and
report the first field missing from `data` (`for field in required_fields:
if field not in data: return ...`). -/
def checkMissing (data : PyVal) : List String → Except PyErr (Option String)
  | [] => .ok Option.none
  | f :: rest => do
    let present ← pyContains data f
    if present then checkMissing data rest
    else .ok (some ("Missing required field: " ++ f))

/-- Shared shape of the four per-field checks in `validate_email_request`:
`if not isinstance(data[field], str) or not data[field].strip(): return msg`.
The `or` short-circuits, so `.strip()` is only applied to actual strings. -/
def checkNonEmptyStr (data : PyVal) (field msg : String) :
    Except PyErr (Option String) := do
  let v ← pyGetItem data field
  match v with
  | .str s => if pyStrip s = "" then .ok (some msg) else .ok Option.none
  | _ => .ok (some msg)

/-- Model of `validate_email_request` (`app/utils.py`): returns `some msg` for
the first failing check, `none` when the request is valid, and propagates the
Python exceptions the checks themselves can raise (e.g. membership test on
`None`). -/
def validateEmailRequest (data : PyVal) : Except PyErr (Option String) := do
  match ← checkMissing data ["tone", "contactName", "companyName", "summary"] with
  | some e => return some e
  | Option.none =>
  match ← checkNonEmptyStr data "tone" "Tone must be a non-empty string" with
  | some e => return some e
  | Option.none =>
  match ← checkNonEmptyStr data "contactName" "Contact name must be a non-empty string" with
  | some e => return some e
  | Option.none =>
  match ← checkNonEmptyStr data "companyName" "Company name must be a non-empty string" with
  | some e => return some e
  | Option.none =>
  match ← checkNonEmptyStr data "summary" "Summary must be a non-empty string" with
  | some e => return some e
  | Option.none =>
  let present ← pyContains data "transcript"
  if present then
    let t ← pyGetItem data "transcript"
    match t with
    | .str _ => return Option.none
    | _ => return some "Transcript must be a string if provided"
  else
    return Option.none

/-- Literal `"Subject:"` that anchors the subject regex
`Subject:\s*(.*?)(?:\n|$)` of `parse_email_response`. -/
def subjPat : List Char := "Subject:".data

/-- Model of `re.search(r'Subject:\s*(.*?)(?:\n|$)', text)` followed by
`.group(1).strip()` with the documented default.  The regex anchors at the
leftmost `Subject:`, then the greedy `\s*` consumes the maximal whitespace run
(which may cross newlines), then the lazy `(.*?)` — where `.` excludes `\n` —
grows until `\n` or the string end, which always succeeds, so no backtracking
into `\s*` ever happens.  The capture is therefore the text between that
whitespace run and the next newline (or end). -/
def extractSubject (text : List Char) : String :=
  match firstOcc subjPat text with
  | Option.none => "Follow-up on our conversation"
  | some i =>
    ⟨pyStripList (((text.drop (i + subjPat.length)).dropWhile pyIsSpace).takeWhile
      (fun c => c ≠ '\n'))⟩

/-- Length of the greeting alternative `(?:Hi|Hello|Dear)` matching at the
head of `l`, in the alternation order of the source regex (`Hi` before
`Hello` before `Dear`); at most one alternative can match at a position. -/
def greetingAt (l : List Char) : Option Nat :=
  if "Hi".data.isPrefixOf l then some 2
  else if "Hello".data.isPrefixOf l then some 5
  else if "Dear".data.isPrefixOf l then some 4
  else Option.none

/-- Position and length of the leftmost greeting occurrence, where the body
regex of `parse_email_response` anchors. -/
def firstGreeting : List Char → Option (Nat × Nat)
  | [] => Option.none
  | c :: rest =>
    match greetingAt (c :: rest) with
    | some g => some (0, g)
    | Option.none => (firstGreeting rest).map (fun p => (p.1 + 1, p.2))

/-- Literal `"Best regards,"` terminating the body regex. -/
def brPat : List Char := "Best regards,".data

/-- Leftmost occurrence of `pat` at a position `≥ j`. -/
def firstOccFrom (pat : List Char) (text : List Char) (j : Nat) : Option Nat :=
  (firstOcc pat (text.drop j)).map (· + j)

/-- End position (exclusive) of the match of `.*?(?:Best regards,|$)` under
`re.DOTALL`, scanning lazily from position `j`.  The first position where
`Best regards,` matches wins when one exists at `p ≥ j` (any such `p` is
`≤ length - 13`, hence is reached before the `$` positions, which are
`length - 1` — only when the text ends in a newline — and `length`);
otherwise the zero-width `$` ends the match, just before a final newline
when there is one at a position `≥ j`. -/
def bodyMatchEnd (text : List Char) (j : Nat) : Nat :=
  match firstOccFrom brPat text j with
  | some p => p + brPat.length
  | Option.none =>
    if j < text.length ∧ text.getLast? = some '\n' then text.length - 1
    else text.length

/-- Model of `re.search(r'(?:Hi|Hello|Dear).*?(?:Best regards,|$)', text,
re.DOTALL)` followed by `.group(0).strip()`, with the raw text as fallback:
once a greeting occurs, the tail `.*?(?:Best regards,|$)` always succeeds, so
the match anchors at the leftmost greeting and the search fails only when no
greeting occurs at all. -/
def extractBody (text : List Char) : String :=
  match firstGreeting text with
  | Option.none => ⟨text⟩
  | some (i, g) => ⟨pyStripList ((text.drop i).take (bodyMatchEnd text (i + g) - i))⟩

/-- Structured email produced by `parse_email_response` (the `EmailResponse`
`TypedDict` of `app/utils.py`); the four echoed fields hold whatever values
the form data carried. -/
structure EmailResponse where
  subject : String
  body : String
  summary : PyVal
  contactName : PyVal
  companyName : PyVal
  tone : PyVal
deriving Repr

/-- Model of `parse_email_response(response_text, form_data)`: extract subject
and body from the completion text, then build the response dict, whose four
subscript reads `form_data[...]` are the only operations that can raise. -/
def parseEmailResponse (responseText : String) (formData : PyVal) :
    Except PyErr EmailResponse := do
  let subject := extractSubject responseText.data
  let body := extractBody responseText.data
  let summary ← pyGetItem formData "summary"
  let contactName ← pyGetItem formData "contactName"
  let companyName ← pyGetItem formData "companyName"
  let tone ← pyGetItem formData "tone"
  return ⟨subject, body, summary, contactName, companyName, tone⟩

/-- Model of Python `str.lower()` (ASCII case mapping, which covers every
character the prompt template itself supplies). -/
def pyLower (s : String) : String :=
  ⟨s.data.map Char.toLower⟩

/-- Closing instruction appended unconditionally at the end of
`construct_email_prompt`. -/
def closingInstruction : String :=
  "\n\nWrite a natural email with two clear paragraphs. The first paragraph should acknowledge the conversation and show understanding. The second paragraph should focus on specific next steps. End with a clear, actionable call to action on its own line. Sign off with \"Best regards,\" followed by a blank line for the signature."

/-- Model of `construct_email_prompt` (`app/prompts.py`): the f-string
template, the `if transcript:` truthiness test (a present-but-empty string is
falsy, matching the `Optional[str]` parameter), and the closing instruction
appended with `+=`. -/
def constructEmailPrompt (tone contact_name company_name summary : String)
    (transcript : Option String) : String :=
  let prompt := "Write a " ++ pyLower tone ++ " follow-up email to " ++
    contact_name ++ " from " ++ company_name ++
    ".\n\nConversation Summary:\n" ++ summary
  let prompt := match transcript with
    | some t => if t = "" then prompt else prompt ++ "\n\nChat Transcript:\n" ++ t
    | Option.none => prompt
  prompt ++ closingInstruction

/-- Model of Python `data.get(key)`: `None` default when the key is absent,
`TypeError`-style failure on a non-dict (no `.get` attribute). -/
def pyGet (data : PyVal) (key : String) : Except PyErr PyVal :=
  match data with
  | .dict l =>
    match l.lookup key with
    | some v => .ok v
    | Option.none => .ok PyVal.none
  | _ => .error .typeError

/-- Model of `generate_email_content(data)` with the upstream completion call
abstracted as an oracle (`call_openai` either returns completion text or
raises).  The field reads and the `tone.lower()` call in the prompt
construction can raise on malformed data; on the handler path the data has
already been validated, so the four fields are non-empty strings there. -/
def generateEmailContent (data : PyVal) (upstream : Except PyErr String) :
    Except PyErr EmailResponse := do
  let toneV ← pyGetItem data "tone"
  let tone ← match toneV with
    | .str s => Except.ok s
    | _ => Except.error PyErr.typeError
  let contactV ← pyGetItem data "contactName"
  let contactName ← match contactV with
    | .str s => Except.ok s
    | _ => Except.error PyErr.typeError
  let companyV ← pyGetItem data "companyName"
  let companyName ← match companyV with
    | .str s => Except.ok s
    | _ => Except.error PyErr.typeError
  let summaryV ← pyGetItem data "summary"
  let summary ← match summaryV with
    | .str s => Except.ok s
    | _ => Except.error PyErr.typeError
  let transcriptV ← pyGet data "transcript"
  let transcript ← match transcriptV with
    | .str s => Except.ok (some s)
    | PyVal.none => Except.ok (Option.none : Option String)
    | _ => Except.error PyErr.typeError
  let _userPrompt := constructEmailPrompt tone contactName companyName summary transcript
  let generatedEmail ← upstream
  parseEmailResponse generatedEmail data

/-- Body of an HTTP JSON response as the association list `jsonify` receives. -/
structure HttpResponse where
  status : Nat
  body : List (String × PyVal)
deriving Repr

/-- Fixed body of the generic 500 response of the handler. -/
def failedBody : List (String × PyVal) :=
  [("error", .str "Failed to generate email")]

/-- Model of the `POST /api/generate-email` handler (`generate_email` in
`app/routes.py`).  The whole body sits in one `try/except Exception`, so any
raise — from validation on malformed data or from the content generation —
becomes the generic 500.  The boolean records whether control reached
`generate_email_content` (and hence the upstream call). -/
def generateEmailRun (data : PyVal) (upstream : Except PyErr String) :
    HttpResponse × Bool :=
  match validateEmailRequest data with
  | .error _ => (⟨500, failedBody⟩, false)
  | .ok (some msg) => (⟨400, [("error", .str msg)]⟩, false)
  | .ok Option.none =>
    match generateEmailContent data upstream with
    | .error _ => (⟨500, failedBody⟩, true)
    | .ok r =>
      (⟨200, [("subject", .str r.subject), ("body", .str r.body),
        ("summary", r.summary), ("contactName", r.contactName),
        ("companyName", r.companyName), ("tone", r.tone)]⟩, true)

/-! ### Basic reduction lemmas -/

@[simp] theorem exceptBind_ok {α β : Type} (a : α) (f : α → Except PyErr β) :
    (Except.ok a : Except PyErr α) >>= f = f a := rfl

@[simp] theorem exceptBind_error {α β : Type} (e : PyErr) (f : α → Except PyErr β) :
    (Except.error e : Except PyErr α) >>= f = (Except.error e : Except PyErr β) := rfl

@[simp] theorem exceptPure_eq_ok {α : Type} (a : α) :
    (pure a : Except PyErr α) = Except.ok a := rfl

/-! ### Characterization of the leftmost-occurrence searches -/

theorem firstOcc_eq_some_of (pat : List Char) :
    ∀ (t : List Char) (i : Nat), pat.isPrefixOf (t.drop i) = true →
      (∀ j, j < i → ¬ (pat.isPrefixOf (t.drop j) = true)) →
      firstOcc pat t = some i := by
  intro t
  induction t with
  | nil =>
    intro i hp hmin
    have h0 : pat.isPrefixOf ([] : List Char) = true := by simpa using hp
    cases i with
    | zero => simp [firstOcc, h0]
    | succ n => exact absurd h0 (by simpa using hmin 0 (Nat.succ_pos n))
  | cons c rest ih =>
    intro i hp hmin
    cases i with
    | zero => simpa [firstOcc] using hp
    | succ n =>
      have hnot : ¬ (pat.isPrefixOf (c :: rest) = true) := by
        simpa using hmin 0 (Nat.succ_pos n)
      have hrec := ih n (by simpa using hp)
        (fun j hj => by simpa using hmin (j + 1) (Nat.succ_lt_succ hj))
      simp [firstOcc, hnot, hrec]

theorem firstOcc_eq_none_of (pat : List Char) :
    ∀ t : List Char, (∀ j, ¬ (pat.isPrefixOf (t.drop j) = true)) →
      firstOcc pat t = Option.none := by
  intro t
  induction t with
  | nil =>
    intro h
    have h0 : ¬ (pat.isPrefixOf ([] : List Char) = true) := by simpa using h 0
    simp [firstOcc, h0]
  | cons c rest ih =>
    intro h
    have h0 : ¬ (pat.isPrefixOf (c :: rest) = true) := by simpa using h 0
    have hrec := ih (fun j => by simpa using h (j + 1))
    simp [firstOcc, h0, hrec]

theorem firstGreeting_eq_some_of :
    ∀ (t : List Char) (i g : Nat), greetingAt (t.drop i) = some g →
      (∀ j, j < i → greetingAt (t.drop j) = Option.none) →
      firstGreeting t = some (i, g) := by
  intro t
  induction t with
  | nil =>
    intro i g hp _
    rw [List.drop_nil] at hp
    rw [show greetingAt [] = Option.none from by decide] at hp
    exact absurd hp (by simp)
  | cons c rest ih =>
    intro i g hp hmin
    cases i with
    | zero =>
      have hp' : greetingAt (c :: rest) = some g := by simpa using hp
      simp [firstGreeting, hp']
    | succ n =>
      have h0 : greetingAt (c :: rest) = Option.none := by
        simpa using hmin 0 (Nat.succ_pos n)
      have hrec := ih n g (by simpa using hp)
        (fun j hj => by simpa using hmin (j + 1) (Nat.succ_lt_succ hj))
      simp [firstGreeting, h0, hrec]

theorem firstGreeting_eq_none_of :
    ∀ t : List Char, (∀ j, greetingAt (t.drop j) = Option.none) →
      firstGreeting t = Option.none := by
  intro t
  induction t with
  | nil => intro _; rfl
  | cons c rest ih =>
    intro h
    have h0 : greetingAt (c :: rest) = Option.none := by simpa using h 0
    have hrec := ih (fun j => by simpa using h (j + 1))
    simp [firstGreeting, h0, hrec]

theorem firstOccFrom_eq_some_of (pat t : List Char) (j p : Nat)
    (hjp : j ≤ p) (hp : pat.isPrefixOf (t.drop p) = true)
    (hmin : ∀ q, j ≤ q → q < p → ¬ (pat.isPrefixOf (t.drop q) = true)) :
    firstOccFrom pat t j = some p := by
  unfold firstOccFrom
  have h1 : firstOcc pat (t.drop j) = some (p - j) := by
    apply firstOcc_eq_some_of
    · rw [List.drop_drop, Nat.add_sub_cancel' hjp]
      exact hp
    · intro k hk
      rw [List.drop_drop]
      exact hmin (j + k) (Nat.le_add_right _ _) (by omega)
  rw [h1]
  simp [Nat.sub_add_cancel hjp]

theorem firstOccFrom_eq_none_of (pat t : List Char) (j : Nat)
    (h : ∀ q, j ≤ q → ¬ (pat.isPrefixOf (t.drop q) = true)) :
    firstOccFrom pat t j = Option.none := by
  unfold firstOccFrom
  rw [firstOcc_eq_none_of pat _
    (fun k => by rw [List.drop_drop]; exact h (j + k) (Nat.le_add_right _ _))]
  rfl

theorem greetingAt_bounds (l : List Char) (g : Nat) (h : greetingAt l = some g) :
    g ≤ l.length ∧ 0 < g := by
  unfold greetingAt at h
  split_ifs at h with h1 h2 h3
  · injection h with h'
    have hl := (List.isPrefixOf_iff_prefix.mp h1).length_le
    simp at hl
    omega
  · injection h with h'
    have hl := (List.isPrefixOf_iff_prefix.mp h2).length_le
    simp at hl
    omega
  · injection h with h'
    have hl := (List.isPrefixOf_iff_prefix.mp h3).length_le
    simp at hl
    omega

theorem pyStripList_append_ws (l : List Char) (c : Char) (hc : pyIsSpace c = true) :
    pyStripList (l ++ [c]) = pyStripList l := by
  unfold pyStripList
  rcases h : l.dropWhile pyIsSpace with _ | ⟨d, ds⟩
  · rw [List.dropWhile_append, h]
    simp [List.dropWhile, hc]
  · rw [List.dropWhile_append, h]
    simp only [List.isEmpty_cons, Bool.false_eq_true, if_false, List.reverse_append,
      List.reverse_cons, List.reverse_nil, List.nil_append, List.singleton_append]
    simp [List.dropWhile, hc]

/-! ### Claims about the response parser -/

/-- Claim C2, counterexample: on the completion text `"Subject:\nFoo"` the code
parses the subject `"Foo"`, while the trimmed remaining text on the line
containing `Subject:` (the text after `Subject:` up to the next newline,
trimmed) is the empty string — the greedy `\s*` crosses the line break. -/
theorem subject_line_c2_counterexample :
    extractSubject ("Subject:\nFoo").data = "Foo" ∧
    pyStrip ⟨(("Subject:\nFoo").data.drop 8).takeWhile (fun c => c ≠ '\n')⟩ = "" ∧
    extractSubject ("Subject:\nFoo").data ≠
      pyStrip ⟨(("Subject:\nFoo").data.drop 8).takeWhile (fun c => c ≠ '\n')⟩ := by
  refine ⟨by decide, by decide, by decide⟩

/-- Claim C2, amended: for every completion text, the parsed subject is the trimmed
text that starts after the first `Subject:` and its following whitespace run
(a run that may cross line breaks) and ends at the next newline or at the end
of the text; when the text contains no `Subject:` occurrence the subject is
the literal `"Follow-up on our conversation"`. -/
theorem subject_extraction_c2 (t : List Char) :
    (∀ i, subjPat.isPrefixOf (t.drop i) = true →
      (∀ j, j < i → ¬ (subjPat.isPrefixOf (t.drop j) = true)) →
      extractSubject t =
        ⟨pyStripList (((t.drop (i + subjPat.length)).dropWhile pyIsSpace).takeWhile
          (fun c => c ≠ '\n'))⟩) ∧
    ((∀ j, ¬ (subjPat.isPrefixOf (t.drop j) = true)) →
      extractSubject t = "Follow-up on our conversation") := by
  constructor
  · intro i hp hmin
    unfold extractSubject
    rw [firstOcc_eq_some_of subjPat t i hp hmin]
  · intro h
    unfold extractSubject
    rw [firstOcc_eq_none_of subjPat t h]

/-- Witness for the amended C2 at a concrete input. -/
theorem subject_extraction_c2_witness :
    extractSubject ("Subject: Great catching up!\nHi Sam, more").data =
      "Great catching up!" := by
  have h := (subject_extraction_c2 ("Subject: Great catching up!\nHi Sam, more").data).1
    0 (by decide) (fun j hj => absurd hj (by omega))
  rw [h]
  decide

/-- Claim C3: when the completion text has a greeting (`Hi`/`Hello`/`Dear`) at
first position `i` and `Best regards,` first occurs at `p` at or after the
greeting's end, the parsed body is the trimmed span from the greeting through
`Best regards,` inclusive; when the text has no greeting at all, the body is
the entire raw text. -/
theorem extractBody_eq_of_firstGreeting (t : List Char) (i g : Nat)
    (h : firstGreeting t = some (i, g)) :
    extractBody t = ⟨pyStripList ((t.drop i).take (bodyMatchEnd t (i + g) - i))⟩ := by
  unfold extractBody
  rw [h]

theorem body_extraction_c3 (t : List Char) :
    (∀ i g p, greetingAt (t.drop i) = some g →
      (∀ j, j < i → greetingAt (t.drop j) = Option.none) →
      brPat.isPrefixOf (t.drop p) = true → i + g ≤ p →
      (∀ q, i + g ≤ q → q < p → ¬ (brPat.isPrefixOf (t.drop q) = true)) →
      extractBody t = ⟨pyStripList ((t.drop i).take (p + brPat.length - i))⟩) ∧
    ((∀ j, greetingAt (t.drop j) = Option.none) → extractBody t = ⟨t⟩) := by
  constructor
  · intro i g p hg hgmin hbr hle hbrmin
    have hend : bodyMatchEnd t (i + g) = p + brPat.length := by
      unfold bodyMatchEnd
      rw [firstOccFrom_eq_some_of brPat t (i + g) p hle hbr hbrmin]
    rw [extractBody_eq_of_firstGreeting t i g
      (firstGreeting_eq_some_of t i g hg hgmin), hend]
  · intro h
    unfold extractBody
    rw [firstGreeting_eq_none_of t h]

/-- Witness for C3 at a concrete input. -/
theorem body_extraction_c3_witness :
    extractBody ("see you! Hi Sam,\nthanks.\nBest regards,\nBob").data =
      "Hi Sam,\nthanks.\nBest regards," := by
  have h := (body_extraction_c3 ("see you! Hi Sam,\nthanks.\nBest regards,\nBob").data).1
    9 2 25 (by decide) (fun j hj => by interval_cases j <;> decide)
    (by decide) (by decide) (fun q h1 h2 => by interval_cases q <;> decide)
  rw [h]
  decide

/-- Claim C9: for a completion text with a greeting but no occurrence of
`Best regards,` anywhere, the parsed body is the trimmed text from the first
greeting through the end of the text (the body regex's terminator accepts the
end of input), not the raw-text fallback. -/
theorem body_no_signoff_c9 (t : List Char) (i g : Nat)
    (hg : greetingAt (t.drop i) = some g)
    (hgmin : ∀ j, j < i → greetingAt (t.drop j) = Option.none)
    (hbr : ∀ q, ¬ (brPat.isPrefixOf (t.drop q) = true)) :
    extractBody t = ⟨pyStripList (t.drop i)⟩ := by
  have hnone : firstOccFrom brPat t (i + g) = Option.none :=
    firstOccFrom_eq_none_of brPat t (i + g) (fun q _ => hbr q)
  have hgl := greetingAt_bounds _ _ hg
  rw [List.length_drop] at hgl
  have hik : i + g ≤ t.length := by omega
  rw [extractBody_eq_of_firstGreeting t i g (firstGreeting_eq_some_of t i g hg hgmin)]
  by_cases hcase : i + g < t.length ∧ t.getLast? = some '\n'
  · have hend : bodyMatchEnd t (i + g) = t.length - 1 := by
      unfold bodyMatchEnd
      rw [hnone, if_pos hcase]
    rw [hend]
    obtain ⟨hlt, hlast⟩ := hcase
    have hdecomp : t.dropLast ++ ['\n'] = t :=
      List.dropLast_append_getLast? '\n' hlast
    have hlen : t.dropLast.length = t.length - 1 := List.length_dropLast t
    have hi : i ≤ t.dropLast.length := by omega
    have hdrop : t.drop i = t.dropLast.drop i ++ ['\n'] := by
      conv_lhs => rw [← hdecomp]
      exact List.drop_append_of_le_length hi
    rw [hdrop, List.take_left' (by rw [List.length_drop, hlen]),
      pyStripList_append_ws _ '\n' (by decide)]
  · have hend : bodyMatchEnd t (i + g) = t.length := by
      unfold bodyMatchEnd
      rw [hnone, if_neg hcase]
    rw [hend]
    have htake : (t.drop i).take (t.length - i) = t.drop i := by
      apply List.take_of_length_le
      simp
    rw [htake]

/-- Witness for C9 at a concrete input. -/
theorem body_no_signoff_c9_witness :
    extractBody ("note: Hello Sam, talk soon.\n").data = "Hello Sam, talk soon." := by
  have h := body_no_signoff_c9 ("note: Hello Sam, talk soon.\n").data 6 5
    (by decide) (fun j hj => by interval_cases j <;> decide)
    (fun q => by
      rcases Nat.lt_or_ge q 28 with hq | hq
      · interval_cases q <;> decide
      · rw [List.drop_eq_nil_of_le (by simpa using hq)]
        decide)
  rw [h]
  decide

/-- Claim C7: the function `parse_email_response` is total on its stated precondition — for
every completion text and every form-data dict containing the keys
`summary`, `contactName`, `companyName`, `tone`, it returns a structured
response and never raises. -/
theorem parse_total_c7 (t : String) (l : List (String × PyVal))
    (h1 : (l.lookup "summary").isSome = true)
    (h2 : (l.lookup "contactName").isSome = true)
    (h3 : (l.lookup "companyName").isSome = true)
    (h4 : (l.lookup "tone").isSome = true) :
    ∃ r, parseEmailResponse t (PyVal.dict l) = Except.ok r := by
  obtain ⟨sv, hs⟩ := Option.isSome_iff_exists.mp h1
  obtain ⟨cv, hc⟩ := Option.isSome_iff_exists.mp h2
  obtain ⟨gv, hg⟩ := Option.isSome_iff_exists.mp h3
  obtain ⟨tv, ht⟩ := Option.isSome_iff_exists.mp h4
  refine ⟨⟨extractSubject t.data, extractBody t.data, sv, cv, gv, tv⟩, ?_⟩
  simp [parseEmailResponse, pyGetItem, hs, hc, hg, ht]

/-- Witness for C7 at a concrete input. -/
theorem parse_total_c7_witness :
    ∃ r, parseEmailResponse "Subject: A\nHi B,\nBest regards,\n"
      (PyVal.dict [("tone", .str "Friendly"), ("contactName", .str "Sam"),
        ("companyName", .str "Acme"), ("summary", .str "S")]) = Except.ok r :=
  parse_total_c7 "Subject: A\nHi B,\nBest regards,\n"
    [("tone", .str "Friendly"), ("contactName", .str "Sam"),
     ("companyName", .str "Acme"), ("summary", .str "S")]
    rfl rfl rfl rfl

/-- Claim C5: the four metadata fields of the parsed response are echoed verbatim
from the request dict, and only the subject and body depend on the completion
text. -/
theorem parse_echo_c5 (t : String) (l : List (String × PyVal))
    (sv cv gv tv : PyVal)
    (hs : l.lookup "summary" = some sv) (hc : l.lookup "contactName" = some cv)
    (hg : l.lookup "companyName" = some gv) (ht : l.lookup "tone" = some tv) :
    parseEmailResponse t (PyVal.dict l) =
      Except.ok ⟨extractSubject t.data, extractBody t.data, sv, cv, gv, tv⟩ := by
  simp [parseEmailResponse, pyGetItem, hs, hc, hg, ht]

/-- Witness for C5 at a concrete input. -/
theorem parse_echo_c5_witness :
    parseEmailResponse "no patterns here"
      (PyVal.dict [("tone", .str "Friendly"), ("contactName", .str "Sam"),
        ("companyName", .str "Acme"), ("summary", .str "S")]) =
      Except.ok ⟨"Follow-up on our conversation", "no patterns here",
        .str "S", .str "Sam", .str "Acme", .str "Friendly"⟩ := by
  have h := parse_echo_c5 "no patterns here"
    [("tone", .str "Friendly"), ("contactName", .str "Sam"),
     ("companyName", .str "Acme"), ("summary", .str "S")]
    (.str "S") (.str "Sam") (.str "Acme") (.str "Friendly")
    rfl rfl rfl rfl
  rw [h]
  rfl

/-! ### Claim C1: the validator against its specification -/

/-- Check "is a string and non-empty after trimming" for a field of a
request dict, as the specification words it. -/
def nonEmptyStrField (l : List (String × PyVal)) (f : String) : Bool :=
  match l.lookup f with
  | some (.str s) => pyStrip s != ""
  | _ => false

/-- Check "transcript, when present, is a string (empty allowed)", as the
specification words it. -/
def transcriptFieldOk (l : List (String × PyVal)) : Bool :=
  match l.lookup "transcript" with
  | some (.str _) => true
  | some _ => false
  | Option.none => true

/-- Validation outcome as the specification words it: presence of the four
required fields is checked first, in the order tone, contactName,
companyName, summary; then each of the four must be a string that is
non-empty after trimming, in the same order; then transcript, when present,
must be a string; the first failing check's field-specific message wins. -/
def specValidateEmailRequest (l : List (String × PyVal)) : Option String :=
  if !(l.lookup "tone").isSome then some "Missing required field: tone"
  else if !(l.lookup "contactName").isSome then some "Missing required field: contactName"
  else if !(l.lookup "companyName").isSome then some "Missing required field: companyName"
  else if !(l.lookup "summary").isSome then some "Missing required field: summary"
  else if !nonEmptyStrField l "tone" then some "Tone must be a non-empty string"
  else if !nonEmptyStrField l "contactName" then some "Contact name must be a non-empty string"
  else if !nonEmptyStrField l "companyName" then some "Company name must be a non-empty string"
  else if !nonEmptyStrField l "summary" then some "Summary must be a non-empty string"
  else if !transcriptFieldOk l then some "Transcript must be a string if provided"
  else Option.none

theorem checkNonEmptyStr_dict (l : List (String × PyVal)) (f msg : String)
    (v : PyVal) (h : l.lookup f = some v) :
    checkNonEmptyStr (PyVal.dict l) f msg =
      Except.ok (if nonEmptyStrField l f then Option.none else some msg) := by
  rcases v with _ | b | n | s | xs | d
  · simp [checkNonEmptyStr, pyGetItem, nonEmptyStrField, h]
  · simp [checkNonEmptyStr, pyGetItem, nonEmptyStrField, h]
  · simp [checkNonEmptyStr, pyGetItem, nonEmptyStrField, h]
  · by_cases hs : pyStrip s = "" <;>
      simp [checkNonEmptyStr, pyGetItem, nonEmptyStrField, h, hs]
  · simp [checkNonEmptyStr, pyGetItem, nonEmptyStrField, h]
  · simp [checkNonEmptyStr, pyGetItem, nonEmptyStrField, h]

theorem validateEmailRequest_dict (l : List (String × PyVal)) :
    validateEmailRequest (PyVal.dict l) =
      Except.ok (specValidateEmailRequest l) := by
  rcases h1 : l.lookup "tone" with _ | v1
  · simp [validateEmailRequest, specValidateEmailRequest, checkMissing, pyContains, h1]
  rcases h2 : l.lookup "contactName" with _ | v2
  · simp [validateEmailRequest, specValidateEmailRequest, checkMissing, pyContains, h1, h2]
  rcases h3 : l.lookup "companyName" with _ | v3
  · simp [validateEmailRequest, specValidateEmailRequest, checkMissing, pyContains, h1, h2, h3]
  rcases h4 : l.lookup "summary" with _ | v4
  · simp [validateEmailRequest, specValidateEmailRequest, checkMissing, pyContains,
      h1, h2, h3, h4]
  have c1 := checkNonEmptyStr_dict l "tone" "Tone must be a non-empty string" v1 h1
  have c2 := checkNonEmptyStr_dict l "contactName"
    "Contact name must be a non-empty string" v2 h2
  have c3 := checkNonEmptyStr_dict l "companyName"
    "Company name must be a non-empty string" v3 h3
  have c4 := checkNonEmptyStr_dict l "summary" "Summary must be a non-empty string" v4 h4
  simp only [validateEmailRequest, specValidateEmailRequest, checkMissing, pyContains,
    h1, h2, h3, h4, c1, c2, c3, c4, Option.isSome_some, Bool.not_true, Bool.false_eq_true,
    if_false, if_true, exceptBind_ok]
  by_cases b1 : nonEmptyStrField l "tone"
  case neg => simp [b1]
  by_cases b2 : nonEmptyStrField l "contactName"
  case neg => simp [b1, b2]
  by_cases b3 : nonEmptyStrField l "companyName"
  case neg => simp [b1, b2, b3]
  by_cases b4 : nonEmptyStrField l "summary"
  case neg => simp [b1, b2, b3, b4]
  simp only [b1, b2, b3, b4, Bool.not_true, Bool.false_eq_true, if_false, if_true, ite_true]
  rcases h5 : l.lookup "transcript" with _ | v5
  · simp [transcriptFieldOk, h5]
  · rcases v5 with _ | b | n | s | xs | d <;>
      simp [transcriptFieldOk, pyGetItem, h5]

theorem nonEmptyStrField_iff (l : List (String × PyVal)) (f : String) :
    nonEmptyStrField l f = true ↔
      ∃ s, l.lookup f = some (PyVal.str s) ∧ pyStrip s ≠ "" := by
  unfold nonEmptyStrField
  rcases h : l.lookup f with _ | v
  · simp
  · rcases v with _ | b | n | s | xs | d <;> simp [h]

theorem transcriptFieldOk_iff (l : List (String × PyVal)) :
    transcriptFieldOk l = true ↔
      ∀ v, l.lookup "transcript" = some v → ∃ s, v = PyVal.str s := by
  unfold transcriptFieldOk
  rcases h : l.lookup "transcript" with _ | v
  · simp [h]
  · rcases v with _ | b | n | s | xs | d <;> simp [h]

theorem nonEmptyStrField_isSome (l : List (String × PyVal)) (f : String)
    (h : nonEmptyStrField l f = true) : (l.lookup f).isSome = true := by
  obtain ⟨s, hs, _⟩ := (nonEmptyStrField_iff l f).mp h
  simp [hs]

theorem specValidate_eq_none_iff (l : List (String × PyVal)) :
    specValidateEmailRequest l = Option.none ↔
      ((∃ s, l.lookup "tone" = some (PyVal.str s) ∧ pyStrip s ≠ "") ∧
       (∃ s, l.lookup "contactName" = some (PyVal.str s) ∧ pyStrip s ≠ "") ∧
       (∃ s, l.lookup "companyName" = some (PyVal.str s) ∧ pyStrip s ≠ "") ∧
       (∃ s, l.lookup "summary" = some (PyVal.str s) ∧ pyStrip s ≠ "") ∧
       (∀ v, l.lookup "transcript" = some v → ∃ s, v = PyVal.str s)) := by
  rw [← nonEmptyStrField_iff, ← nonEmptyStrField_iff, ← nonEmptyStrField_iff,
    ← nonEmptyStrField_iff, ← transcriptFieldOk_iff]
  constructor
  · intro h
    unfold specValidateEmailRequest at h
    split_ifs at h with g1 g2 g3 g4 g5 g6 g7 g8 g9
    simp_all
  · rintro ⟨p1, p2, p3, p4, p5⟩
    unfold specValidateEmailRequest
    simp [p1, p2, p3, p4, p5, nonEmptyStrField_isSome l "tone" p1,
      nonEmptyStrField_isSome l "contactName" p2,
      nonEmptyStrField_isSome l "companyName" p3,
      nonEmptyStrField_isSome l "summary" p4]

/-- Claim C1: on every request dict, `validate_email_request` returns exactly the
outcome the specification describes — `None` precisely when the four required
fields are present as non-empty-after-trimming strings and transcript, when
present, is a string; otherwise the field-specific message of the first
failing check, in the documented check order. -/
theorem validate_request_c1 (l : List (String × PyVal)) :
    validateEmailRequest (PyVal.dict l) =
      Except.ok (specValidateEmailRequest l) ∧
    (specValidateEmailRequest l = Option.none ↔
      ((∃ s, l.lookup "tone" = some (PyVal.str s) ∧ pyStrip s ≠ "") ∧
       (∃ s, l.lookup "contactName" = some (PyVal.str s) ∧ pyStrip s ≠ "") ∧
       (∃ s, l.lookup "companyName" = some (PyVal.str s) ∧ pyStrip s ≠ "") ∧
       (∃ s, l.lookup "summary" = some (PyVal.str s) ∧ pyStrip s ≠ "") ∧
       (∀ v, l.lookup "transcript" = some v → ∃ s, v = PyVal.str s))) :=
  ⟨validateEmailRequest_dict l, specValidate_eq_none_iff l⟩

/-- Witness for C1 at a concrete input. -/
theorem validate_request_c1_witness :
    validateEmailRequest (PyVal.dict [("tone", .str "Friendly"),
      ("contactName", .str "Sam"), ("companyName", .str "Acme"),
      ("summary", .str "Discussed pricing.")]) = Except.ok Option.none := by
  rw [(validate_request_c1 [("tone", .str "Friendly"), ("contactName", .str "Sam"),
    ("companyName", .str "Acme"), ("summary", .str "Discussed pricing.")]).1]
  rfl

/-! ### Claims about the prompt builder and the HTTP handler -/

/-- Prompt header as the specification words it: "Write a {tone, lowercased}
follow-up email to {contactName} from {companyName}." then a blank line,
"Conversation Summary:" and the summary. -/
def specPromptHeader (tone contactName companyName summary : String) : String :=
  "Write a " ++ pyLower tone ++ " follow-up email to " ++ contactName ++
    " from " ++ companyName ++ ".\n\nConversation Summary:\n" ++ summary

/-- Claim C6: the constructed user prompt is the template header with the tone
lowercased, then the "Chat Transcript:" section exactly when a transcript is
present and non-empty, then the fixed closing instruction paragraph. -/
theorem construct_prompt_c6 (tone contactName companyName summary : String)
    (transcript : Option String) :
    (∀ tr, transcript = some tr → tr ≠ "" →
      constructEmailPrompt tone contactName companyName summary transcript =
        specPromptHeader tone contactName companyName summary ++
          "\n\nChat Transcript:\n" ++ tr ++ closingInstruction) ∧
    (transcript = Option.none ∨ transcript = some "" →
      constructEmailPrompt tone contactName companyName summary transcript =
        specPromptHeader tone contactName companyName summary ++
          closingInstruction) := by
  constructor
  · rintro tr rfl htr
    simp [constructEmailPrompt, specPromptHeader, htr]
  · rintro (rfl | rfl)
    · simp [constructEmailPrompt, specPromptHeader]
    · simp [constructEmailPrompt, specPromptHeader]

/-- Witness for C6 at a concrete input. -/
theorem construct_prompt_c6_witness :
    constructEmailPrompt "Friendly" "Sam" "Acme" "Discussed pricing." (some "T") =
      specPromptHeader "Friendly" "Sam" "Acme" "Discussed pricing." ++
        "\n\nChat Transcript:\n" ++ "T" ++ closingInstruction :=
  (construct_prompt_c6 "Friendly" "Sam" "Acme" "Discussed pricing." (some "T")).1
    "T" rfl (by decide)

/-- Claim C4: the handler surfaces a validation failure as a 400 carrying the
validator's message; every raised exception — whether from validation on
malformed data or anywhere in the content-generation path — becomes exactly
the generic 500 body; and every non-200 response is one of those two. -/
theorem handler_errors_c4 (data : PyVal) (upstream : Except PyErr String) :
    (∀ msg, validateEmailRequest data = Except.ok (some msg) →
      (generateEmailRun data upstream).1 =
        ⟨400, [("error", PyVal.str msg)]⟩) ∧
    (∀ e, validateEmailRequest data = Except.error e →
      (generateEmailRun data upstream).1 = ⟨500, failedBody⟩) ∧
    (∀ e, validateEmailRequest data = Except.ok Option.none →
      generateEmailContent data upstream = Except.error e →
      (generateEmailRun data upstream).1 = ⟨500, failedBody⟩) ∧
    ((generateEmailRun data upstream).1.status ≠ 200 →
      (∃ msg, validateEmailRequest data = Except.ok (some msg) ∧
        (generateEmailRun data upstream).1 =
          ⟨400, [("error", PyVal.str msg)]⟩) ∨
      (generateEmailRun data upstream).1 = ⟨500, failedBody⟩) := by
  refine ⟨?_, ?_, ?_, ?_⟩
  · intro msg h
    simp [generateEmailRun, h]
  · intro e h
    simp [generateEmailRun, h]
  · intro e hv hc
    simp [generateEmailRun, hv, hc]
  · intro hne
    rcases hv : validateEmailRequest data with e | o
    · right
      simp [generateEmailRun, hv]
    · rcases o with _ | msg
      · rcases hc : generateEmailContent data upstream with e | r
        · right
          simp [generateEmailRun, hv, hc]
        · exact absurd (by simp [generateEmailRun, hv, hc]) hne
      · left
        exact ⟨msg, rfl, by simp [generateEmailRun, hv]⟩

/-- Witness for C4 at a concrete input. -/
theorem handler_errors_c4_witness :
    (generateEmailRun (PyVal.dict []) (Except.ok "text")).1 =
      ⟨400, [("error", PyVal.str "Missing required field: tone")]⟩ :=
  (handler_errors_c4 (PyVal.dict []) (Except.ok "text")).1
    "Missing required field: tone" rfl

/-- Claim C8: when validation fails, the handler's response does not depend on the
upstream oracle at all, the upstream path is never entered, and the response
is the 400. -/
theorem no_upstream_on_invalid_c8 (data : PyVal) (msg : String)
    (h : validateEmailRequest data = Except.ok (some msg)) :
    (∀ u₁ u₂, generateEmailRun data u₁ = generateEmailRun data u₂) ∧
    (∀ u, (generateEmailRun data u).2 = false ∧
      (generateEmailRun data u).1.status = 400) := by
  constructor
  · intro u₁ u₂
    simp [generateEmailRun, h]
  · intro u
    simp [generateEmailRun, h]

/-- Witness for C8 at a concrete input. -/
theorem no_upstream_on_invalid_c8_witness :
    (generateEmailRun (PyVal.dict [("tone", PyVal.str "F")])
      (Except.ok "text")).2 = false :=
  ((no_upstream_on_invalid_c8 (PyVal.dict [("tone", PyVal.str "F")])
    "Missing required field: contactName" rfl).2 (Except.ok "text")).1

/-- Claim C10: a JSON `null` request body (`data is None`) makes the membership
test in `validate_email_request` raise a `TypeError` instead of returning a
validation message, so the endpoint answers with the generic 500, not a
400. -/
theorem null_request_c10 :
    validateEmailRequest PyVal.none = Except.error PyErr.typeError ∧
    ∀ u, (generateEmailRun PyVal.none u).1 = ⟨500, failedBody⟩ ∧
      (generateEmailRun PyVal.none u).1.status ≠ 400 := by
  refine ⟨rfl, ?_⟩
  intro u
  have hv : validateEmailRequest PyVal.none = Except.error PyErr.typeError := rfl
  constructor
  · simp [generateEmailRun, hv]
  · simp [generateEmailRun, hv]

end LeadReply
